import Mathlib

/-!
Formal model of the Electric-Lock firmware (src/main.c, src/lcd.c).

The firmware is a bare-metal state machine: a main poll loop plus three
interrupt handlers (ADC conversion complete, button edge, Timer A CCR0)
sharing global variables.  We embed the globals and the relevant hardware
register bits as a record `LockState`, and each handler / loop iteration
as a total function on that record.  Machine integers are modelled as `ℕ`
with explicit `% 2^w` where the C type could truncate.  The LCD driver is
modelled as an append-only log of the driver calls (`lcd_command` /
`lcd_display`) issued by the core, with the digit clamp of `lcd_display`
embedded from src/lcd.c.
-/

/-- One call into the LCD driver: a control byte (`lcd_command`) or a data
byte (`lcd_display`, after its clamp). -/
inductive LcdOp where
  | cmd (c : ℕ)
  | dat (d : ℕ)
deriving DecidableEq

/-- Clamp from src/lcd.c `lcd_display`: characters strictly between ASCII
0x39 and 0x41 are replaced by 0x39 before being written. -/
def lcdClamp (d : ℕ) : ℕ :=
  if 0x39 < d ∧ d < 0x41 then 0x39 else d

/-- Log entry for `lcd_display(dat)`; the argument is an `unsigned char`. -/
def lcdDisplayOp (d : ℕ) : LcdOp :=
  LcdOp.dat (lcdClamp (d % 256))

/-- Log view of `lcd_text(text, pos)`: position the cursor, then write each character
through `lcd_display`. -/
def lcdTextOps (text : List ℕ) (pos : ℕ) : List LcdOp :=
  LcdOp.cmd pos :: text.map lcdDisplayOp

/-- ASCII codes of the string WRONG. -/
def wrongText : List ℕ := [0x57, 0x52, 0x4F, 0x4E, 0x47]

/-- ASCII codes of the string PASSWORD. -/
def passwordText : List ℕ := [0x50, 0x41, 0x53, 0x53, 0x57, 0x4F, 0x52, 0x44]

/-- ASCII codes of the string UNLOCKED. -/
def unlockedText : List ℕ := [0x55, 0x4E, 0x4C, 0x4F, 0x43, 0x4B, 0x45, 0x44]

/-- ASCII codes of the string Enter PW. -/
def enterPWText : List ℕ := [0x45, 0x6E, 0x74, 0x65, 0x72, 0x20, 0x50, 0x57]

/-- Log view of `lcd_begin()` from src/lcd.c: cursor home, four zero digits, the
Enter PW prompt on the second line, cursor home again. -/
def lcdBeginOps : List LcdOp :=
  LcdOp.cmd 0x80 :: List.replicate 4 (lcdDisplayOp 0x30)
    ++ lcdTextOps enterPWText 0xC1 ++ [LcdOp.cmd 0x80]

/-- Log view of `lcd_initialization()` from src/lcd.c: mode/font, cursor, shift and
clear commands followed by `lcd_begin` (the raw reset pulses of
`lcd_reset` are below the abstraction level of the log). -/
def lcdInitOps : List LcdOp :=
  [LcdOp.cmd 0x28, LcdOp.cmd 0x0C, LcdOp.cmd 0x06, LcdOp.cmd 0x01] ++ lcdBeginOps

/-- Driver calls issued by `turn_on_led` in the `correct = 0` branch:
clear screen, WRONG at 0x85, PASSWORD at 0xC4. -/
def wrongMsgOps : List LcdOp :=
  LcdOp.cmd 0x01 :: lcdTextOps wrongText 0x85 ++ lcdTextOps passwordText 0xC4

/-- Driver calls issued by `turn_on_led` in the `correct = 1` branch:
clear screen, UNLOCKED at 0x84. -/
def unlockedOps : List LcdOp :=
  LcdOp.cmd 0x01 :: lcdTextOps unlockedText 0x84

/-- The digit extraction `(ADC12MEM0 >> 8) & 0x0F` used at main.c:163 and
main.c:191: the most-significant nibble of the 12-bit sample. -/
def quantDigit (raw : ℕ) : ℕ :=
  (raw >>> 8) &&& 0x0F

/-- The `check_password` comparison loop (main.c:109-114), started with the
current value of the `correct` flag: compare guess and password element by
element in index order, stop at the first mismatch (which clears the flag).
Returns the final flag value and the number of element comparisons
performed. -/
def checkList (c : Bool) : List ℕ → List ℕ → Bool × ℕ
  | p :: ps, g :: gs =>
    if g ≠ p then (false, 1)
    else
      let r := checkList c ps gs
      (r.1, r.2 + 1)
  | _, _ => (c, 0)

/-- The mutable state of the firmware: the global variables of main.c plus
the hardware register bits the core reads or writes.  `ta0ccr0` is the
Timer A compare register, `ccie` its interrupt-enable bit, `timerRunning`
whether TA0CTL holds a running (up) mode, `adc12enc` / `adc12ie0` the ADC
enable and interrupt-enable bits, `adc12mem0` the latest conversion
result, `led3`/`led4`/`led5` the three P4 output bits, and `lcdLog` the
log of LCD driver calls issued so far. -/
structure LockState where
  seconds : ℕ
  password : List ℕ
  guess : List ℕ
  data_cnt : ℕ
  pressed : Bool
  correct : Bool
  conversion_allowed : Bool
  adc12enc : Bool
  adc12ie0 : Bool
  ccie : Bool
  ta0ccr0 : ℕ
  timerRunning : Bool
  led3 : Bool
  led4 : Bool
  led5 : Bool
  adc12mem0 : ℕ
  lcdLog : List LcdOp
deriving DecidableEq

/-- The state after main.c:123-158 and `lcd_initialization` complete and
the poll loop is entered, with the secret generalised to `pw` (the
repository fixes `password = {1,2,3,4}` at main.c:46). -/
def initState (pw : List ℕ) : LockState where
  seconds := 0
  password := pw
  guess := [0, 0, 0, 0]
  data_cnt := 0
  pressed := false
  correct := true
  conversion_allowed := true
  adc12enc := true
  adc12ie0 := true
  ccie := false
  ta0ccr0 := 8191
  timerRunning := true
  led3 := false
  led4 := false
  led5 := false
  adc12mem0 := 0
  lcdLog := lcdInitOps

/-- Modelled from the spec: the confirm-button (PORT2) interrupt handler is
not present in src/ — main.c only configures the falling-edge trigger and
enables the P2.4 interrupt (main.c:134-139).  Per the Input Latch of the spec,
a qualifying edge unconditionally sets the pending-confirmation flag
`pressed`; the enable bit is set once at initialization and never
cleared, so the handler is always deliverable. -/
def buttonISR (s : LockState) : LockState :=
  { s with pressed := true }

/-- Body of `ADC12ISR` (main.c:184-199) for interrupt cause ADC12IV = 6:
while `conversion_allowed`, echo the quantized digit at the cursor slot of
the current digit; always toggle the P4.5 alive LED. -/
def adcISRBody (s : LockState) : LockState :=
  let s1 :=
    if s.conversion_allowed then
      { s with lcdLog := s.lcdLog ++
          [LcdOp.cmd ((0x80 + s.data_cnt) % 256),
           lcdDisplayOp (quantDigit s.adc12mem0 + 0x30)] }
    else s
  { s1 with led5 := ! s1.led5 }

/-- A conversion-complete event carrying the raw 12-bit sample `raw`: the
hardware latches the result into ADC12MEM0 only while ADC12ENC is set,
and the interrupt handler runs only while ADC12IE0 is set. -/
def adcConversion (raw : ℕ) (s : LockState) : LockState :=
  if s.adc12enc then
    let s1 := { s with adc12mem0 := raw % 4096 }
    if s1.adc12ie0 then adcISRBody s1 else s1
  else s

/-- The confirmation-consuming half of a loop iteration (main.c:162-165):
if `conversion_allowed`, store the quantized digit into
`guess[data_cnt]` and increment the `uint8_t` counter. -/
def consumeStep (s : LockState) : LockState :=
  if s.conversion_allowed then
    { s with guess := s.guess.set s.data_cnt (quantDigit s.adc12mem0),
             data_cnt := (s.data_cnt + 1) % 256 }
  else s

/-- Function `turn_on_led` (main.c:65-90): restart the timer in up mode and, by the
value of `correct`, write the outcome message, set CCR0 to one second
(32768-1), enable the CCR0 interrupt and assert the matching LED. -/
def turn_on_led (s : LockState) : LockState :=
  let s1 := { s with timerRunning := true }
  if s1.correct then
    { s1 with lcdLog := s1.lcdLog ++ unlockedOps,
              ta0ccr0 := 32767, ccie := true, led3 := true }
  else
    { s1 with lcdLog := s1.lcdLog ++ wrongMsgOps,
              ta0ccr0 := 32767, ccie := true, led4 := true }

/-- Function `check_password` (main.c:100-117): disable the ADC conversion and its
interrupt, stop the timer with CCR0 = 0, reset `data_cnt`, run the
comparison loop (which can only clear `correct`), then `turn_on_led`. -/
def checkPassword (s : LockState) : LockState :=
  let s1 := { s with adc12enc := false, adc12ie0 := false,
                     ta0ccr0 := 0, timerRunning := false, data_cnt := 0 }
  let r := checkList s1.correct s1.password s1.guess
  turn_on_led { s1 with correct := r.1 }

/-- One iteration of the main poll loop (main.c:160-173): if a confirmation
is pending, consume it; if the counter then exceeds 3, clear
`conversion_allowed` and validate; finally clear `pressed`. -/
def mainIter (s : LockState) : LockState :=
  if s.pressed then
    let s1 := consumeStep s
    let s2 :=
      if 3 < s1.data_cnt then
        checkPassword { s1 with conversion_allowed := false }
      else s1
    { s2 with pressed := false }
  else s

/-- Handler `Timer_A_CCR0_ISR` (main.c:210-232), deliverable only while CCIE is
set: increment the `uint8_t` second counter; once it exceeds 2, turn off
the lit LED, disable CCR0 interrupts, clear the screen and redraw the
entry screen, restore `correct`, `seconds`, the entry-mode period and the
ADC, and reopen the software gate. -/
def timerISR (s : LockState) : LockState :=
  if s.ccie then
    let sec := (s.seconds + 1) % 256
    if 2 < sec then
      { s with
          led3 := if s.correct then false else s.led3,
          led4 := if s.correct then s.led4 else false,
          ccie := false,
          lcdLog := s.lcdLog ++ (LcdOp.cmd 0x01 :: lcdBeginOps),
          correct := true,
          seconds := 0,
          ta0ccr0 := 8191,
          adc12enc := true,
          conversion_allowed := true,
          adc12ie0 := true }
    else
      { s with seconds := sec }
  else s

/-- FeedbackState from the spec, derived from the globals: Idle during entry,
otherwise the outcome recorded in `correct` during the feedback window. -/
inductive FeedbackState where
  | Idle
  | Success
  | Failure
deriving DecidableEq

/-- Derived feedback state of a `LockState`. -/
def feedbackState (s : LockState) : FeedbackState :=
  if s.conversion_allowed then FeedbackState.Idle
  else if s.correct then FeedbackState.Success else FeedbackState.Failure

/-- System invariant tying the globals together (established at
`initState`, preserved by every event). -/
def LockInv (pw : List ℕ) (s : LockState) : Prop :=
  s.password = pw ∧
  s.guess.length = 4 ∧
  s.seconds ≤ 2 ∧
  (s.conversion_allowed = true → s.correct = true) ∧
  (s.conversion_allowed = true → s.data_cnt ≤ 3) ∧
  (s.conversion_allowed = false → s.data_cnt = 0) ∧
  (s.ccie = true → s.conversion_allowed = false) ∧
  (s.conversion_allowed = false → s.adc12enc = false ∧ s.adc12ie0 = false) ∧
  (s.ccie = false → s.seconds = 0)

/-- States reachable from `initState pw` by any interleaving of the three
event handlers and main-loop iterations (handlers run to completion, so
each is one atomic step). -/
inductive Reachable (pw : List ℕ) : LockState → Prop where
  | init : Reachable pw (initState pw)
  | button {s} : Reachable pw s → Reachable pw (buttonISR s)
  | adc (raw : ℕ) {s} : Reachable pw s → Reachable pw (adcConversion raw s)
  | timer {s} : Reachable pw s → Reachable pw (timerISR s)
  | loop {s} : Reachable pw s → Reachable pw (mainIter s)

/-- Demo run, step 1: one conversion completes with raw sample 0x0500
(high nibble 5) from the initial state with the secret of the repository. -/
def demoStep0 : LockState := adcConversion 0x0500 (initState [1, 2, 3, 4])

/-- Demo run: first digit confirmed and committed. -/
def demoCommit1 : LockState := mainIter (buttonISR demoStep0)

/-- Demo run: second digit confirmed and committed. -/
def demoCommit2 : LockState := mainIter (buttonISR demoCommit1)

/-- Demo run: third digit confirmed and committed. -/
def demoCommit3 : LockState := mainIter (buttonISR demoCommit2)

/-- Demo run: the fourth confirmation is pending but not yet consumed. -/
def demoBefore4 : LockState := buttonISR demoCommit3

/-- Demo run: the fourth confirmation is consumed, the guess [5,5,5,5] is
validated against [1,2,3,4] and the feedback window is armed. -/
def demoAfterEntry : LockState := mainIter demoBefore4

/-- Demo run: first feedback tick. -/
def demoArmed1 : LockState := timerISR demoAfterEntry

/-- Demo run: second feedback tick. -/
def demoArmed2 : LockState := timerISR demoArmed1

/-- Demo run: third feedback tick, which restarts the entry cycle. -/
def demoRestarted : LockState := timerISR demoArmed2

/-- Clamp probe: a conversion with raw sample 0x0D00 (high nibble 13) is
echoed, confirmed and committed from the initial state. -/
def demoClamp : LockState := mainIter (buttonISR (adcConversion 0x0D00 (initState [1, 2, 3, 4])))

@[simp]
theorem turn_on_led_conversion_allowed (s : LockState) :
    (turn_on_led s).conversion_allowed = s.conversion_allowed := by
  unfold turn_on_led; by_cases h : s.correct <;> simp [h]

@[simp]
theorem turn_on_led_data_cnt (s : LockState) :
    (turn_on_led s).data_cnt = s.data_cnt := by
  unfold turn_on_led; by_cases h : s.correct <;> simp [h]

@[simp]
theorem turn_on_led_seconds (s : LockState) :
    (turn_on_led s).seconds = s.seconds := by
  unfold turn_on_led; by_cases h : s.correct <;> simp [h]

@[simp]
theorem turn_on_led_guess (s : LockState) :
    (turn_on_led s).guess = s.guess := by
  unfold turn_on_led; by_cases h : s.correct <;> simp [h]

@[simp]
theorem turn_on_led_password (s : LockState) :
    (turn_on_led s).password = s.password := by
  unfold turn_on_led; by_cases h : s.correct <;> simp [h]

@[simp]
theorem turn_on_led_pressed (s : LockState) :
    (turn_on_led s).pressed = s.pressed := by
  unfold turn_on_led; by_cases h : s.correct <;> simp [h]

@[simp]
theorem turn_on_led_correct (s : LockState) :
    (turn_on_led s).correct = s.correct := by
  unfold turn_on_led; by_cases h : s.correct <;> simp [h]

@[simp]
theorem turn_on_led_adc12enc (s : LockState) :
    (turn_on_led s).adc12enc = s.adc12enc := by
  unfold turn_on_led; by_cases h : s.correct <;> simp [h]

@[simp]
theorem turn_on_led_adc12ie0 (s : LockState) :
    (turn_on_led s).adc12ie0 = s.adc12ie0 := by
  unfold turn_on_led; by_cases h : s.correct <;> simp [h]

@[simp]
theorem turn_on_led_ccie (s : LockState) :
    (turn_on_led s).ccie = true := by
  unfold turn_on_led; by_cases h : s.correct <;> simp [h]

@[simp]
theorem turn_on_led_ta0ccr0 (s : LockState) :
    (turn_on_led s).ta0ccr0 = 32767 := by
  unfold turn_on_led; by_cases h : s.correct <;> simp [h]

@[simp]
theorem turn_on_led_lcdLog (s : LockState) :
    (turn_on_led s).lcdLog =
      s.lcdLog ++ (if s.correct then unlockedOps else wrongMsgOps) := by
  unfold turn_on_led; by_cases h : s.correct <;> simp [h]

@[simp]
theorem turn_on_led_led3 (s : LockState) :
    (turn_on_led s).led3 = (if s.correct then true else s.led3) := by
  unfold turn_on_led; by_cases h : s.correct <;> simp [h]

@[simp]
theorem turn_on_led_led4 (s : LockState) :
    (turn_on_led s).led4 = (if s.correct then s.led4 else true) := by
  unfold turn_on_led; by_cases h : s.correct <;> simp [h]

@[simp]
theorem checkPassword_conversion_allowed (s : LockState) :
    (checkPassword s).conversion_allowed = s.conversion_allowed := by
  unfold checkPassword; simp

@[simp]
theorem checkPassword_data_cnt (s : LockState) :
    (checkPassword s).data_cnt = 0 := by
  unfold checkPassword; simp

@[simp]
theorem checkPassword_seconds (s : LockState) :
    (checkPassword s).seconds = s.seconds := by
  unfold checkPassword; simp

@[simp]
theorem checkPassword_guess (s : LockState) :
    (checkPassword s).guess = s.guess := by
  unfold checkPassword; simp

@[simp]
theorem checkPassword_password (s : LockState) :
    (checkPassword s).password = s.password := by
  unfold checkPassword; simp

@[simp]
theorem checkPassword_pressed (s : LockState) :
    (checkPassword s).pressed = s.pressed := by
  unfold checkPassword; simp

@[simp]
theorem checkPassword_correct (s : LockState) :
    (checkPassword s).correct = (checkList s.correct s.password s.guess).1 := by
  unfold checkPassword; simp

@[simp]
theorem checkPassword_adc12enc (s : LockState) :
    (checkPassword s).adc12enc = false := by
  unfold checkPassword; simp

@[simp]
theorem checkPassword_adc12ie0 (s : LockState) :
    (checkPassword s).adc12ie0 = false := by
  unfold checkPassword; simp

@[simp]
theorem checkPassword_ccie (s : LockState) :
    (checkPassword s).ccie = true := by
  unfold checkPassword; simp

@[simp]
theorem checkPassword_ta0ccr0 (s : LockState) :
    (checkPassword s).ta0ccr0 = 32767 := by
  unfold checkPassword; simp

@[simp]
theorem checkPassword_lcdLog (s : LockState) :
    (checkPassword s).lcdLog =
      s.lcdLog ++
        (if (checkList s.correct s.password s.guess).1 then unlockedOps
         else wrongMsgOps) := by
  unfold checkPassword; simp

@[simp]
theorem checkPassword_led3 (s : LockState) :
    (checkPassword s).led3 =
      (if (checkList s.correct s.password s.guess).1 then true else s.led3) := by
  unfold checkPassword; simp

@[simp]
theorem checkPassword_led4 (s : LockState) :
    (checkPassword s).led4 =
      (if (checkList s.correct s.password s.guess).1 then s.led4 else true) := by
  unfold checkPassword; simp

theorem adcConversion_keeps (raw : ℕ) (s : LockState) :
    (adcConversion raw s).seconds = s.seconds ∧
    (adcConversion raw s).password = s.password ∧
    (adcConversion raw s).guess = s.guess ∧
    (adcConversion raw s).data_cnt = s.data_cnt ∧
    (adcConversion raw s).pressed = s.pressed ∧
    (adcConversion raw s).correct = s.correct ∧
    (adcConversion raw s).conversion_allowed = s.conversion_allowed ∧
    (adcConversion raw s).adc12enc = s.adc12enc ∧
    (adcConversion raw s).adc12ie0 = s.adc12ie0 ∧
    (adcConversion raw s).ccie = s.ccie := by
  unfold adcConversion adcISRBody
  by_cases h1 : s.adc12enc <;> by_cases h2 : s.adc12ie0 <;>
    by_cases h3 : s.conversion_allowed <;> simp [h1, h2, h3]

theorem lockInv_adc {pw : List ℕ} (raw : ℕ) {s : LockState} (h : LockInv pw s) :
    LockInv pw (adcConversion raw s) := by
  obtain ⟨k1, k2, k3, k4, k5, k6, k7, k8, k9, k10⟩ := adcConversion_keeps raw s
  unfold LockInv at h ⊢
  rw [k1, k2, k3, k4, k6, k7, k8, k9, k10]
  exact h

theorem lockInv_initState (pw : List ℕ) : LockInv pw (initState pw) := by
  simp [LockInv, initState]

theorem lockInv_button {pw : List ℕ} {s : LockState} (h : LockInv pw s) :
    LockInv pw (buttonISR s) := by
  simpa [LockInv, buttonISR] using h

theorem lockInv_timer {pw : List ℕ} {s : LockState} (h : LockInv pw s) :
    LockInv pw (timerISR s) := by
  obtain ⟨h1, h2, h3, h4, h5, h6, h7, h8, h9⟩ := h
  unfold timerISR
  by_cases hc : s.ccie
  · have hca : s.conversion_allowed = false := h7 hc
    have hd : s.data_cnt = 0 := h6 hca
    simp only [hc, if_true]
    by_cases hsec : 2 < (s.seconds + 1) % 256
    · simp [LockInv, hsec, h1, h2, hd]
    · simp only [hsec, if_false]
      unfold LockInv
      dsimp only
      refine ⟨h1, h2, by omega, ?_, ?_, ?_, ?_, ?_, ?_⟩ <;> simp_all
  · simp only [Bool.not_eq_true] at hc
    simp only [hc, Bool.false_eq_true, if_false]
    exact ⟨h1, h2, h3, h4, h5, h6, h7, h8, h9⟩

theorem lockInv_main {pw : List ℕ} {s : LockState} (h : LockInv pw s) :
    LockInv pw (mainIter s) := by
  obtain ⟨h1, h2, h3, h4, h5, h6, h7, h8, h9⟩ := h
  unfold mainIter consumeStep
  by_cases hp : s.pressed
  · simp only [hp, if_true]
    by_cases hca : s.conversion_allowed
    · have hd : s.data_cnt ≤ 3 := h5 hca
      have hcc : s.ccie = false := by
        by_contra hcc
        simp only [Bool.not_eq_false] at hcc
        simp [h7 hcc] at hca
      simp only [hca, if_true]
      by_cases hinc : 3 < (s.data_cnt + 1) % 256
      · simp only [hinc, if_true]
        unfold LockInv
        simp [h1, h2, h9 hcc]
      · simp only [hinc, if_false]
        unfold LockInv
        dsimp only
        refine ⟨h1, by simpa using h2, h3, fun _ => h4 hca, fun _ => by omega,
          ?_, ?_, ?_, h9⟩ <;> simp_all
    · simp only [Bool.not_eq_true] at hca
      have hd : s.data_cnt = 0 := h6 hca
      simp only [hca, Bool.false_eq_true, if_false, hd]
      norm_num
      unfold LockInv
      dsimp only
      exact ⟨h1, h2, h3, by simp [hca], by simp [hca], fun _ => hd, h7,
        fun _ => h8 hca, h9⟩
  · simp only [Bool.not_eq_true] at hp
    simp only [hp, Bool.false_eq_true, if_false]
    exact ⟨h1, h2, h3, h4, h5, h6, h7, h8, h9⟩

theorem reachable_lockInv {pw : List ℕ} {s : LockState}
    (h : Reachable pw s) : LockInv pw s := by
  induction h with
  | init => exact lockInv_initState pw
  | button _ ih => exact lockInv_button ih
  | adc raw _ ih => exact lockInv_adc raw ih
  | timer _ ih => exact lockInv_timer ih
  | loop _ ih => exact lockInv_main ih

theorem checkList_fst (c : Bool) :
    ∀ S G : List ℕ, S.length = G.length →
      (checkList c S G).1 = (c && decide (G = S)) := by
  intro S
  induction S with
  | nil =>
    intro G hG
    cases G with
    | nil => simp [checkList]
    | cons g gs => simp at hG
  | cons p ps ih =>
    intro G hG
    cases G with
    | nil => simp at hG
    | cons g gs =>
      by_cases hg : g = p
      · simp [checkList, hg, ih gs (by simpa using hG)]
      · simp [checkList, hg]

theorem checkList_count_mismatch (c : Bool) :
    ∀ (S G : List ℕ) (k : ℕ), k < S.length → k < G.length →
      (∀ j, j < k → G.getD j 0 = S.getD j 0) → G.getD k 0 ≠ S.getD k 0 →
      (checkList c S G).2 = k + 1 := by
  intro S
  induction S with
  | nil => intro G k hk _ _ _; simp at hk
  | cons p ps ih =>
    intro G k hkS hkG hpre hmis
    cases G with
    | nil => simp at hkG
    | cons g gs =>
      cases k with
      | zero =>
        simp only [List.getD_cons_zero] at hmis
        simp [checkList, hmis]
      | succ k =>
        have hg : g = p := by
          have := hpre 0 (Nat.succ_pos k)
          simpa using this
        have := ih gs k (by simpa using hkS) (by simpa using hkG)
          (fun j hj => by simpa using hpre (j + 1) (by omega))
          (by simpa using hmis)
        simp [checkList, hg, this]

theorem checkList_count_all_match (c : Bool) :
    ∀ S : List ℕ, (checkList c S S).2 = S.length := by
  intro S
  induction S with
  | nil => simp [checkList]
  | cons p ps ih => simp [checkList, ih]

theorem checkList_fst_true_mono (c : Bool) :
    ∀ S G : List ℕ, (checkList c S G).1 = true → c = true := by
  intro S
  induction S with
  | nil => intro G h; cases G <;> simpa [checkList] using h
  | cons p ps ih =>
    intro G h
    cases G with
    | nil => simpa [checkList] using h
    | cons g gs =>
      by_cases hg : g = p
      · exact ih gs (by simpa [checkList, hg] using h)
      · simp [checkList, hg] at h

@[simp]
theorem turn_on_led_timerRunning (s : LockState) :
    (turn_on_led s).timerRunning = true := by
  unfold turn_on_led; by_cases h : s.correct <;> simp [h]

@[simp]
theorem checkPassword_timerRunning (s : LockState) :
    (checkPassword s).timerRunning = true := by
  unfold checkPassword; simp

theorem reach_demoBefore4 : Reachable [1, 2, 3, 4] demoBefore4 := by
  unfold demoBefore4 demoCommit3 demoCommit2 demoCommit1 demoStep0
  exact .button (.loop (.button (.loop (.button (.loop (.button (.adc 0x0500 .init)))))))

theorem reach_demoAfterEntry : Reachable [1, 2, 3, 4] demoAfterEntry := by
  unfold demoAfterEntry
  exact .loop reach_demoBefore4

theorem reach_demoArmed1 : Reachable [1, 2, 3, 4] demoArmed1 := by
  unfold demoArmed1
  exact .timer reach_demoAfterEntry

theorem reach_demoArmed2 : Reachable [1, 2, 3, 4] demoArmed2 := by
  unfold demoArmed2
  exact .timer reach_demoArmed1

/-- C1: for every secret S and guess G of length 4, the `check_password`
comparison loop (entered with `correct = 1`) ends with Success
(`correct = 1`) iff G equals S element-wise and with Failure otherwise;
it compares in index order and stops at the first mismatch, so exactly
k+1 element comparisons happen when the first mismatch is at index k,
and exactly 4 when the lists agree. -/
theorem validate_success_iff_shortcircuit (S G : List ℕ)
    (hS : S.length = 4) (hG : G.length = 4) :
    ((checkList true S G).1 = true ↔ G = S) ∧
    ((checkList true S G).1 = false ↔ G ≠ S) ∧
    (∀ k : ℕ, k < 4 → (∀ j, j < k → G.getD j 0 = S.getD j 0) →
      G.getD k 0 ≠ S.getD k 0 → (checkList true S G).2 = k + 1) ∧
    (G = S → (checkList true S G).2 = 4) := by
  have hfst := checkList_fst true S G (by omega)
  refine ⟨?_, ?_, ?_, ?_⟩
  · simp [hfst]
  · simp [hfst]
  · intro k hk hpre hmis
    exact checkList_count_mismatch true S G k (by omega) (by omega) hpre hmis
  · intro hGS
    subst hGS
    simpa [hG] using checkList_count_all_match true G

/-- Witness for C1 at scenarios A and B of the spec: secret [1,2,3,4] with
guess [1,2,3,4] succeeds, guess [1,2,9,4] fails after exactly 3
comparisons (first mismatch at index 2). -/
theorem validate_success_iff_shortcircuit_witness :
    (checkList true [1, 2, 3, 4] [1, 2, 3, 4]).1 = true ∧
    (checkList true [1, 2, 3, 4] [1, 2, 9, 4]).1 = false ∧
    (checkList true [1, 2, 3, 4] [1, 2, 9, 4]).2 = 3 :=
  ⟨((validate_success_iff_shortcircuit [1, 2, 3, 4] [1, 2, 3, 4] rfl rfl).1).mpr rfl,
   ((validate_success_iff_shortcircuit [1, 2, 3, 4] [1, 2, 9, 4] rfl rfl).2.1).mpr (by decide),
   (validate_success_iff_shortcircuit [1, 2, 3, 4] [1, 2, 9, 4] rfl rfl).2.2.1 2
     (by decide) (by decide) (by decide)⟩

/-- C2: the Input Latch handler unconditionally sets `pressed`; a second
edge before consumption merely overwrites the pending confirmation (the
state after two edges equals the state after one); no other handler
writes `pressed`, and a main-loop iteration always leaves it cleared. -/
theorem input_latch_sets_flag_single_writer (s : LockState) (raw : ℕ) :
    (buttonISR s).pressed = true ∧
    buttonISR (buttonISR s) = buttonISR s ∧
    (adcConversion raw s).pressed = s.pressed ∧
    (timerISR s).pressed = s.pressed ∧
    (mainIter s).pressed = false := by
  refine ⟨rfl, rfl, ?_, ?_, ?_⟩
  · unfold adcConversion adcISRBody
    by_cases h1 : s.adc12enc <;> by_cases h2 : s.adc12ie0 <;>
      by_cases h3 : s.conversion_allowed <;> simp [h1, h2, h3]
  · unfold timerISR
    by_cases h1 : s.ccie
    · simp only [h1, if_true]
      by_cases h2 : 2 < (s.seconds + 1) % 256 <;> simp [h2]
    · simp [h1]
  · unfold mainIter
    by_cases h1 : s.pressed
    · simp [h1]
    · simp only [Bool.not_eq_true] at h1
      simp [h1]

/-- C3 probe: at a conversion whose high nibble is 13 (raw 0x0D00) the
value committed into the guess buffer by the main loop is the unclamped
13, while the LCD echo of the very same sample is the clamped digit
character for 9 (0x39).  The clamp of src/lcd.c:131-133 exists only in
the display path; main.c:163 stores the raw nibble. -/
theorem quantize_unclamped_at_13 :
    quantDigit 0x0D00 = 13 ∧
    demoClamp.guess = [13, 0, 0, 0] ∧
    demoClamp.lcdLog = lcdInitOps ++ [LcdOp.cmd 0x80, LcdOp.dat 0x39] ∧
    lcdClamp (quantDigit 0x0D00 + 0x30) = 0x39 ∧
    demoClamp.guess ≠ [9, 0, 0, 0] := by
  refine ⟨by decide, by decide, by decide, by decide, by decide⟩

/-- C4 counterexample: run the lock of the repository through a full wrong
guess [5,5,5,5] and the complete 3-tick feedback window; at the restart
the guess buffer still holds [5,5,5,5], not the claimed post-initialize
value [0,0,0,0] (only the display is redrawn to all zeros). -/
theorem feedback_restart_guess_not_cleared :
    demoArmed2.ccie = true ∧ demoArmed2.seconds = 2 ∧
    demoRestarted.data_cnt = 0 ∧ demoRestarted.correct = true ∧
    demoRestarted.conversion_allowed = true ∧
    demoRestarted.guess = [5, 5, 5, 5] ∧
    demoRestarted.guess ≠ [0, 0, 0, 0] := by
  refine ⟨by decide, by decide, by decide, by decide, by decide, by decide, by decide⟩

/-- C4 (amended): when the feedback window completes (the tick that takes
`seconds` past 2), `data_cnt` is 0, `correct` is restored to 1,
`conversion_allowed` is reopened and `seconds` is reset — but the guess
buffer is left exactly as it was, not cleared to [0,0,0,0]. -/
theorem feedback_restart_state (pw : List ℕ) (s : LockState)
    (hr : Reachable pw s) (hc : s.ccie = true) (hsec : s.seconds = 2) :
    (timerISR s).data_cnt = 0 ∧
    (timerISR s).correct = true ∧
    (timerISR s).conversion_allowed = true ∧
    (timerISR s).seconds = 0 ∧
    (timerISR s).guess = s.guess := by
  obtain ⟨h1, h2, h3, h4, h5, h6, h7, h8, h9⟩ := reachable_lockInv hr
  have hd : s.data_cnt = 0 := h6 (h7 hc)
  unfold timerISR
  simp [hc, hsec, hd]

/-- Witness for the amended C4 theorem at the end of the demo run. -/
theorem feedback_restart_state_witness :
    demoArmed2.ccie = true ∧ demoArmed2.seconds = 2 ∧
    ((timerISR demoArmed2).data_cnt = 0 ∧
     (timerISR demoArmed2).correct = true ∧
     (timerISR demoArmed2).conversion_allowed = true ∧
     (timerISR demoArmed2).seconds = 0 ∧
     (timerISR demoArmed2).guess = demoArmed2.guess) :=
  ⟨by decide, by decide,
   feedback_restart_state [1, 2, 3, 4] demoArmed2 reach_demoArmed2 (by decide) (by decide)⟩

/-- C5: a main-loop iteration that consumes a pending confirmation: while
the gate is open the consume phase (main.c:162-165) writes exactly the
slot `guess[data_cnt]` with the current quantized sample and increments
`data_cnt` by exactly 1 (before any validation of a completed guess runs);
while the gate is closed it changes neither the guess buffer nor the
counter; and the iteration always ends with `pressed` cleared and with
the guess buffer equal to its post-consume value. -/
theorem consume_confirmation_effects (pw : List ℕ) (s : LockState)
    (hr : Reachable pw s) (hp : s.pressed = true) :
    (s.conversion_allowed = true →
      (consumeStep s).guess = s.guess.set s.data_cnt (quantDigit s.adc12mem0) ∧
      (consumeStep s).data_cnt = s.data_cnt + 1 ∧
      (∀ j, j ≠ s.data_cnt → (consumeStep s).guess.getD j 0 = s.guess.getD j 0)) ∧
    (s.conversion_allowed = false → consumeStep s = s) ∧
    (mainIter s).guess = (consumeStep s).guess ∧
    (mainIter s).data_cnt ≤ (consumeStep s).data_cnt ∧
    (mainIter s).pressed = false := by
  obtain ⟨h1, h2, h3, h4, h5, h6, h7, h8, h9⟩ := reachable_lockInv hr
  refine ⟨?_, ?_, ?_, ?_, ?_⟩
  · intro hca
    have hd : s.data_cnt ≤ 3 := h5 hca
    have hc : consumeStep s =
        { s with guess := s.guess.set s.data_cnt (quantDigit s.adc12mem0),
                 data_cnt := (s.data_cnt + 1) % 256 } := by
      unfold consumeStep
      simp [hca]
    rw [hc]
    refine ⟨rfl, show (s.data_cnt + 1) % 256 = s.data_cnt + 1 by omega, ?_⟩
    intro j hj
    show (s.guess.set s.data_cnt (quantDigit s.adc12mem0)).getD j 0 = s.guess.getD j 0
    simp [List.getD_eq_getElem?_getD, List.getElem?_set_ne (Ne.symm hj)]
  · intro hca
    unfold consumeStep
    simp [hca]
  · unfold mainIter
    simp only [hp, if_true]
    by_cases hv : 3 < (consumeStep s).data_cnt <;> simp [hv]
  · unfold mainIter
    simp only [hp, if_true]
    by_cases hv : 3 < (consumeStep s).data_cnt <;> simp [hv]
  · unfold mainIter
    simp [hp]

/-- Witness for C5: an accepted confirmation right after initialization
(gate open), and a discarded one during the feedback window of the demo
run (gate closed). -/
theorem consume_confirmation_effects_witness :
    ((consumeStep (buttonISR (initState [1, 2, 3, 4]))).guess =
        (buttonISR (initState [1, 2, 3, 4])).guess.set
          (buttonISR (initState [1, 2, 3, 4])).data_cnt
          (quantDigit (buttonISR (initState [1, 2, 3, 4])).adc12mem0) ∧
      (consumeStep (buttonISR (initState [1, 2, 3, 4]))).data_cnt =
        (buttonISR (initState [1, 2, 3, 4])).data_cnt + 1) ∧
    consumeStep (buttonISR demoAfterEntry) = buttonISR demoAfterEntry :=
  ⟨(fun h => ⟨h.1, h.2.1⟩)
      ((consume_confirmation_effects [1, 2, 3, 4] (buttonISR (initState [1, 2, 3, 4]))
        (.button .init) rfl).1 rfl),
   (consume_confirmation_effects [1, 2, 3, 4] (buttonISR demoAfterEntry)
      (.button reach_demoAfterEntry) rfl).2.1 (by decide)⟩

/-- C6: the 4th accepted confirmation (pending press, open gate,
`data_cnt` = 3) closes the gate, and while the gate is closed no button
edge, no conversion event and no loop iteration reopens it; the timer
tick reopens it exactly when it is deliverable (CCIE set) and takes the
second counter past 2, i.e. at the end of the feedback window. -/
theorem accepting_flag_false_until_window_end (s : LockState) (raw : ℕ) :
    (s.pressed = true → s.conversion_allowed = true → s.data_cnt = 3 →
      (mainIter s).conversion_allowed = false) ∧
    (s.conversion_allowed = false →
      (buttonISR s).conversion_allowed = false ∧
      (adcConversion raw s).conversion_allowed = false ∧
      (mainIter s).conversion_allowed = false ∧
      ((timerISR s).conversion_allowed = true ↔
        (s.ccie = true ∧ 2 < (s.seconds + 1) % 256))) := by
  constructor
  · intro hp hca hd
    unfold mainIter consumeStep
    simp [hp, hca, hd]
  · intro hca
    refine ⟨by simpa [buttonISR] using hca, ?_, ?_, ?_⟩
    · unfold adcConversion adcISRBody
      by_cases h1 : s.adc12enc <;> by_cases h2 : s.adc12ie0 <;>
        simp [h1, h2, hca]
    · unfold mainIter consumeStep
      by_cases hp : s.pressed
      · simp only [hp, if_true, hca, Bool.false_eq_true, if_false]
        by_cases hv : 3 < s.data_cnt <;> simp [hv, hca]
      · simp only [Bool.not_eq_true] at hp
        simp [hp, hca]
    · unfold timerISR
      by_cases h1 : s.ccie
      · simp only [h1, if_true]
        by_cases h2 : 2 < (s.seconds + 1) % 256 <;> simp [h1, h2, hca]
      · simp [h1, hca]

/-- Witness for C6: the arming part at the pending 4th confirmation of the
demo run, the preservation part during its feedback window. -/
theorem accepting_flag_false_until_window_end_witness :
    (mainIter demoBefore4).conversion_allowed = false ∧
    ((buttonISR demoAfterEntry).conversion_allowed = false ∧
     (adcConversion 0x0200 demoAfterEntry).conversion_allowed = false ∧
     (mainIter demoAfterEntry).conversion_allowed = false ∧
     ((timerISR demoAfterEntry).conversion_allowed = true ↔
       (demoAfterEntry.ccie = true ∧ 2 < (demoAfterEntry.seconds + 1) % 256))) :=
  ⟨(accepting_flag_false_until_window_end demoBefore4 0x0200).1 (by decide) (by decide) (by decide),
   (accepting_flag_false_until_window_end demoAfterEntry 0x0200).2 (by decide)⟩

/-- C7: from an armed state (CCIE set, `seconds` = 0) the feedback window
lasts exactly 3 ticks: the first two ticks only increment `seconds` and
change nothing else, and the third tick turns off the lit LED, disables
CCR0 interrupt delivery, clears the screen and redraws the initial entry
screen, and restarts the entry cycle (gate reopened, `correct` and
`seconds` reset, entry-mode period restored). -/
theorem feedback_window_three_ticks (s : LockState)
    (hc : s.ccie = true) (hs : s.seconds = 0) :
    timerISR s = { s with seconds := 1 } ∧
    timerISR (timerISR s) = { s with seconds := 2 } ∧
    ((timerISR (timerISR (timerISR s))).seconds = 0 ∧
     (timerISR (timerISR (timerISR s))).ccie = false ∧
     (timerISR (timerISR (timerISR s))).conversion_allowed = true ∧
     (timerISR (timerISR (timerISR s))).correct = true ∧
     (timerISR (timerISR (timerISR s))).adc12enc = true ∧
     (timerISR (timerISR (timerISR s))).adc12ie0 = true ∧
     (timerISR (timerISR (timerISR s))).ta0ccr0 = 8191 ∧
     (timerISR (timerISR (timerISR s))).lcdLog =
       s.lcdLog ++ (LcdOp.cmd 0x01 :: lcdBeginOps) ∧
     (s.correct = true → (timerISR (timerISR (timerISR s))).led3 = false ∧
       (timerISR (timerISR (timerISR s))).led4 = s.led4) ∧
     (s.correct = false → (timerISR (timerISR (timerISR s))).led4 = false ∧
       (timerISR (timerISR (timerISR s))).led3 = s.led3) ∧
     (timerISR (timerISR (timerISR s))).guess = s.guess ∧
     (timerISR (timerISR (timerISR s))).data_cnt = s.data_cnt) := by
  have e1 : timerISR s = { s with seconds := 1 } := by
    unfold timerISR
    simp [hc, hs]
  have e2 : timerISR (timerISR s) = { s with seconds := 2 } := by
    rw [e1]
    unfold timerISR
    simp [hc]
  have e3 : timerISR (timerISR (timerISR s)) =
      { s with
          led3 := if s.correct then false else s.led3,
          led4 := if s.correct then s.led4 else false,
          ccie := false,
          lcdLog := s.lcdLog ++ (LcdOp.cmd 0x01 :: lcdBeginOps),
          correct := true,
          seconds := 0,
          ta0ccr0 := 8191,
          adc12enc := true,
          conversion_allowed := true,
          adc12ie0 := true } := by
    rw [e2]
    unfold timerISR
    simp [hc]
  rw [e3]
  refine ⟨e1, e2, rfl, rfl, rfl, rfl, rfl, rfl, rfl, rfl, ?_, ?_, rfl, rfl⟩
  · intro hcor
    simp [hcor]
  · intro hcor
    simp [hcor]

/-- Witness for C7 at the armed state of the demo run. -/
theorem feedback_window_three_ticks_witness :
    demoAfterEntry.ccie = true ∧ demoAfterEntry.seconds = 0 ∧
    timerISR demoAfterEntry = { demoAfterEntry with seconds := 1 } ∧
    (timerISR (timerISR (timerISR demoAfterEntry))).conversion_allowed = true := by
  have h := feedback_window_three_ticks demoAfterEntry (by decide) (by decide)
  exact ⟨by decide, by decide, h.1, h.2.2.2.2.1⟩

/-- C8: consuming the 4th confirmation (the validation path through
`check_password` and `turn_on_led`) leaves the elapsed-seconds counter at
0, sets the timer period to the one-second feedback value 32768-1,
enables the CCR0 tick interrupt with the timer running, computes the
outcome by the comparison loop, writes the matching message (UNLOCKED /
WRONG PASSWORD) to the display and asserts the matching LED. -/
theorem arming_effects (pw : List ℕ) (s : LockState) (hr : Reachable pw s)
    (hp : s.pressed = true) (hca : s.conversion_allowed = true)
    (hd : s.data_cnt = 3) :
    (mainIter s).seconds = 0 ∧
    (mainIter s).ta0ccr0 = 32767 ∧
    (mainIter s).ccie = true ∧
    (mainIter s).timerRunning = true ∧
    (mainIter s).correct =
      (checkList true pw (s.guess.set 3 (quantDigit s.adc12mem0))).1 ∧
    (mainIter s).lcdLog = s.lcdLog ++
      (if (checkList true pw (s.guess.set 3 (quantDigit s.adc12mem0))).1
       then unlockedOps else wrongMsgOps) ∧
    (mainIter s).led3 =
      (if (checkList true pw (s.guess.set 3 (quantDigit s.adc12mem0))).1
       then true else s.led3) ∧
    (mainIter s).led4 =
      (if (checkList true pw (s.guess.set 3 (quantDigit s.adc12mem0))).1
       then s.led4 else true) := by
  obtain ⟨h1, h2, h3, h4, h5, h6, h7, h8, h9⟩ := reachable_lockInv hr
  have hcc : s.ccie = false := by
    by_contra hcc
    simp only [Bool.not_eq_false] at hcc
    simp [h7 hcc] at hca
  have hsec : s.seconds = 0 := h9 hcc
  have hm : mainIter s =
      { checkPassword
          { s with guess := s.guess.set 3 (quantDigit s.adc12mem0),
                   data_cnt := 4,
                   conversion_allowed := false } with pressed := false } := by
    unfold mainIter consumeStep
    simp [hp, hca, hd]
  rw [hm]
  refine ⟨?_, ?_, ?_, ?_, ?_, ?_, ?_, ?_⟩ <;>
    simp [hsec, h1, h4 hca]

/-- Witness for C8 at the pending 4th confirmation of the demo run. -/
theorem arming_effects_witness :
    (mainIter demoBefore4).seconds = 0 ∧
    (mainIter demoBefore4).ta0ccr0 = 32767 ∧
    (mainIter demoBefore4).ccie = true ∧
    (mainIter demoBefore4).timerRunning = true ∧
    (mainIter demoBefore4).correct =
      (checkList true [1, 2, 3, 4]
        (demoBefore4.guess.set 3 (quantDigit demoBefore4.adc12mem0))).1 ∧
    (mainIter demoBefore4).lcdLog = demoBefore4.lcdLog ++
      (if (checkList true [1, 2, 3, 4]
            (demoBefore4.guess.set 3 (quantDigit demoBefore4.adc12mem0))).1
       then unlockedOps else wrongMsgOps) ∧
    (mainIter demoBefore4).led3 =
      (if (checkList true [1, 2, 3, 4]
            (demoBefore4.guess.set 3 (quantDigit demoBefore4.adc12mem0))).1
       then true else demoBefore4.led3) ∧
    (mainIter demoBefore4).led4 =
      (if (checkList true [1, 2, 3, 4]
            (demoBefore4.guess.set 3 (quantDigit demoBefore4.adc12mem0))).1
       then demoBefore4.led4 else true) :=
  arming_effects [1, 2, 3, 4] demoBefore4 reach_demoBefore4
    (by decide) (by decide) (by decide)

/-- C9: whenever the accepting gate is open, `correct` is 1 — in
particular at the start of every validation; `check_password` itself can
only have ended with `correct = 1` if it already started with
`correct = 1` (the loop never sets the flag); the Timer ISR restores
`correct = 1` on the tick that ends the feedback window. -/
theorem correct_flag_invariant (pw : List ℕ) (s : LockState)
    (hr : Reachable pw s) :
    (s.conversion_allowed = true → s.correct = true) ∧
    ((checkPassword s).correct = true → s.correct = true) ∧
    (s.ccie = true → 2 < (s.seconds + 1) % 256 → (timerISR s).correct = true) := by
  obtain ⟨h1, h2, h3, h4, h5, h6, h7, h8, h9⟩ := reachable_lockInv hr
  refine ⟨h4, ?_, ?_⟩
  · intro h
    simp only [checkPassword_correct] at h
    exact checkList_fst_true_mono s.correct s.password s.guess h
  · intro hc hsec
    unfold timerISR
    simp [hc, hsec]

/-- Witness for C9: the invariant at the initial state and the restore at
the window-ending tick of the demo run. -/
theorem correct_flag_invariant_witness :
    (initState [1, 2, 3, 4]).correct = true ∧
    (timerISR demoArmed2).correct = true :=
  ⟨(correct_flag_invariant [1, 2, 3, 4] (initState [1, 2, 3, 4]) .init).1 rfl,
   (correct_flag_invariant [1, 2, 3, 4] demoArmed2 reach_demoArmed2).2.2
     (by decide) (by decide)⟩

/-- C10: while the feedback state is not Idle, the ADC enable and
interrupt-enable bits are clear (as `check_password` leaves them), so a
conversion event changes nothing at all — no sample latch, no display
echo, no alive-LED toggle; the window-ending tick re-enables both. -/
theorem feedback_window_sampler_disabled (pw : List ℕ) (s : LockState)
    (raw : ℕ) (hr : Reachable pw s)
    (hfb : feedbackState s ≠ FeedbackState.Idle) :
    s.adc12enc = false ∧ s.adc12ie0 = false ∧
    adcConversion raw s = s ∧
    (checkPassword s).adc12enc = false ∧
    (checkPassword s).adc12ie0 = false ∧
    (s.ccie = true → 2 < (s.seconds + 1) % 256 →
      (timerISR s).adc12enc = true ∧ (timerISR s).adc12ie0 = true) := by
  obtain ⟨h1, h2, h3, h4, h5, h6, h7, h8, h9⟩ := reachable_lockInv hr
  have hca : s.conversion_allowed = false := by
    by_contra hca
    simp only [Bool.not_eq_false] at hca
    simp [feedbackState, hca] at hfb
  obtain ⟨he, hi⟩ := h8 hca
  refine ⟨he, hi, ?_, by simp, by simp, ?_⟩
  · unfold adcConversion
    simp [he]
  · intro hc hsec
    unfold timerISR
    simp [hc, hsec]

/-- Witness for C10 during the feedback window of the demo run. -/
theorem feedback_window_sampler_disabled_witness :
    demoArmed2.adc12enc = false ∧ demoArmed2.adc12ie0 = false ∧
    adcConversion 0x0300 demoArmed2 = demoArmed2 ∧
    ((timerISR demoArmed2).adc12enc = true ∧
     (timerISR demoArmed2).adc12ie0 = true) := by
  have h := feedback_window_sampler_disabled [1, 2, 3, 4] demoArmed2 0x0300
    reach_demoArmed2 (by decide)
  exact ⟨h.1, h.2.1, h.2.2.1, h.2.2.2.2.2 (by decide) (by decide)⟩
